import Mathlib

/-!
Verification of the SquareCut image-cropping application (`src/App.tsx`).

The core logic lives in `handleAutoCrop` (App.tsx lines 49-76): it decodes the
current image source, computes the centered square crop region whose side is
the minimum of the decoded width and height, renders that region, and stores
the encoded result.  `onFileChange` (lines 29-40) installs a new image source,
`downloadImage` (lines 78-86) exposes the result under a fixed filename.

Numbers: the TypeScript code computes the crop offsets with plain JavaScript
division `(img.width - minSide) / 2`.  Image dimensions are integers, and
halving an integer is exact in binary floating point for all realistic image
sizes, so we model dimensions as naturals and the offsets as exact rationals.
-/

/-- Modelled from the spec: the `Area` type is imported from `src/types`,
which is absent from the repository snapshot.  Spec section 3 gives
CropRegion as `{x, y, width, height}`; the fields are JavaScript numbers,
modelled as rationals because the offsets may be half-integers. -/
structure Area where
  x : ℚ
  y : ℚ
  width : ℚ
  height : ℚ
  deriving DecidableEq, Repr

/-- A decoded bitmap: the image handle produced by `createImage`, of which
`handleAutoCrop` only reads `img.width` and `img.height` (pixel dimensions,
positive integers per spec section 3). -/
structure Bitmap where
  width : ℕ
  height : ℕ
  deriving DecidableEq, Repr

/-- Modelled from the spec: `getMinSideLength` is imported from
`src/utils/imageUtils`, which is absent from the repository snapshot.
Spec section 4.2 step 1: `side = min(bitmap.width, bitmap.height)`. -/
def getMinSideLength (img : Bitmap) : ℕ :=
  min img.width img.height

/-- The crop-planning block of `handleAutoCrop` (App.tsx lines 54-66):
`minSide = getMinSideLength(img)`, `startX = (img.width - minSide) / 2`,
`startY = (img.height - minSide) / 2`, and the `pixelCrop` Area built from
them.  Division is the exact JavaScript `/`, with no rounding. -/
def planCrop (img : Bitmap) : Area :=
  let minSide := getMinSideLength img
  { x := ((img.width : ℚ) - (minSide : ℚ)) / 2
  , y := ((img.height : ℚ) - (minSide : ℚ)) / 2
  , width := (minSide : ℚ)
  , height := (minSide : ℚ) }

/-- The component state of the `App` component (App.tsx lines 22-25):
`imageSrc`, `croppedImage`, `isProcessing`, `error`. -/
structure AppState where
  imageSrc : Option String
  croppedImage : Option String
  isProcessing : Bool
  error : Option String
  deriving DecidableEq, Repr

/-- JavaScript truthiness of a `string | null` value: `null` and the empty
string are falsy.  `handleAutoCrop` guards with `if (!imageSrc) return`. -/
def jsFalsy : Option String → Bool
  | none => true
  | some s => s = ""

/-- The error message set by the `catch` branch of `handleAutoCrop`
(App.tsx line 72). -/
def processErrorMsg : String :=
  "Failed to process image. Please try another one."

/-- The decode-plan-render sequence inside the `try` block of
`handleAutoCrop` (App.tsx lines 54-68), parameterised by the behaviour of
the two collaborators from `src/utils/imageUtils` (absent from the
snapshot): `createImage` decodes the source into a bitmap or throws, and
`getCroppedImg` renders the planned region or throws.  The region handed to
`getCroppedImg` is exactly `planCrop img`. -/
def pipelineResult (createImage : String → Except String Bitmap)
    (getCroppedImg : String → Area → Except String String)
    (src : String) : Except String String :=
  match createImage src with
  | Except.error e => Except.error e
  | Except.ok img => getCroppedImg src (planCrop img)

/-- Entry into the `try` block: `setIsProcessing(true)` (App.tsx line 52). -/
def handleAutoCropStart (s : AppState) : AppState :=
  { s with isProcessing := true }

/-- The completion of `handleAutoCrop` (App.tsx lines 68-75): on success the
resolved crop is stored with `setCroppedImage(croppedResult)`; on a thrown
error the `catch` branch sets the error message; the `finally` branch sets
`isProcessing` to `false` on both paths.  The handler reads nothing from the
current state: in particular there is no request-identity check. -/
def handleAutoCropFinish (s : AppState) : Except String String → AppState
  | Except.error _ =>
      { s with error := some processErrorMsg, isProcessing := false }
  | Except.ok cropped =>
      { s with croppedImage := some cropped, isProcessing := false }

/-- `handleAutoCrop` (App.tsx lines 49-76) as a state transformer, given the
behaviour of the decode and render collaborators: early return when
`imageSrc` is falsy, otherwise start processing, run the pipeline and apply
the completion. -/
def handleAutoCrop (createImage : String → Except String Bitmap)
    (getCroppedImg : String → Area → Except String String)
    (s : AppState) : AppState :=
  match s.imageSrc with
  | none => s
  | some src =>
      if src = "" then s
      else
        handleAutoCropFinish (handleAutoCropStart s)
          (pipelineResult createImage getCroppedImg src)

/-- The `reader.onload` handler of `onFileChange` (App.tsx lines 33-37):
installs the freshly read data URL as the image source and clears the
previous cropped image and error. -/
def onFileChangeLoaded (s : AppState) (dataUrl : String) : AppState :=
  { s with imageSrc := some dataUrl, croppedImage := none, error := none }

/-- The anchor element built by `downloadImage` (App.tsx lines 80-82):
its `href` and `download` (filename) attributes. -/
structure DownloadAction where
  href : String
  filename : String
  deriving DecidableEq, Repr

/-- `downloadImage` (App.tsx lines 78-86): no-op when no cropped image
exists, otherwise triggers a download of the cropped image under the fixed
filename `square-crop.jpg`. -/
def downloadImage (s : AppState) : Option DownloadAction :=
  match s.croppedImage with
  | none => none
  | some c => some { href := c, filename := "square-crop.jpg" }

/-- Modelled from the spec: `getCroppedImg` lives in `src/utils/imageUtils`,
absent from the snapshot.  Spec section 4.3: the renderer allocates a fresh
pixel surface of `region.width x region.height` and encodes it, so the
output dimensions equal the region dimensions. -/
def renderedSurfaceDims (region : Area) : ℚ × ℚ :=
  (region.width, region.height)

/-! ## Claims -/

/-- Claim C1: for every decoded bitmap with positive width `w` and height
`h`, the planned crop region has `width = height = min w h` and top-left
offsets `x = (w - min w h) / 2`, `y = (h - min w h) / 2`; in particular a
400x800 image yields the region `{x := 0, y := 200, width := 400,
height := 400}`. -/
theorem planCrop_square_centered :
    (∀ w h : ℕ, 0 < w → 0 < h →
      (planCrop ⟨w, h⟩).width = ((min w h : ℕ) : ℚ) ∧
      (planCrop ⟨w, h⟩).height = ((min w h : ℕ) : ℚ) ∧
      (planCrop ⟨w, h⟩).x = ((w : ℚ) - ((min w h : ℕ) : ℚ)) / 2 ∧
      (planCrop ⟨w, h⟩).y = ((h : ℚ) - ((min w h : ℕ) : ℚ)) / 2) ∧
    planCrop ⟨400, 800⟩ = ⟨0, 200, 400, 400⟩ := by
  refine ⟨fun w h _ _ => ⟨rfl, rfl, rfl, rfl⟩, ?_⟩
  simp only [planCrop, getMinSideLength]
  norm_num

/-- Witness for C1: the general part instantiated at the concrete
400x800 bitmap. -/
theorem planCrop_square_centered_witness :
    (planCrop ⟨400, 800⟩).width = ((min 400 800 : ℕ) : ℚ) ∧
    (planCrop ⟨400, 800⟩).y = ((800 : ℚ) - ((min 400 800 : ℕ) : ℚ)) / 2 := by
  have h := planCrop_square_centered.1 400 800 (by norm_num) (by norm_num)
  exact ⟨h.1, h.2.2.2⟩

/-- Counterexample for C2: for the 401x800 input the planned `y` offset is
199.5, which is neither 199 nor 200 and is not an integer: the code applies
no rounding at all. -/
theorem planCrop_odd_diff_not_integer :
    (planCrop ⟨401, 800⟩).y = 399 / 2 ∧
    (planCrop ⟨401, 800⟩).y ≠ 199 ∧
    (planCrop ⟨401, 800⟩).y ≠ 200 ∧
    ¬ ∃ n : ℤ, (planCrop ⟨401, 800⟩).y = (n : ℚ) := by
  have hy : (planCrop ⟨401, 800⟩).y = 399 / 2 := by
    simp only [planCrop, getMinSideLength]
    norm_num
  refine ⟨hy, by rw [hy]; norm_num, by rw [hy]; norm_num, ?_⟩
  rintro ⟨n, hn⟩
  rw [hy] at hn
  have h2 : (2 : ℚ) * (n : ℚ) = 399 := by
    field_simp at hn
    linarith
  have h3 : (2 * n : ℤ) = 399 := by exact_mod_cast h2
  omega

/-- Claim C2 amended: the planner applies one fixed, consistent rule, but it
is exact halving with no rounding: for all dimensions the offsets are
exactly `(w - side) / 2` and `(h - side) / 2` as rationals, so when the
difference is odd the offset is the half-integer midpoint; for a 401x800
input the planned `y` offset is 199.5. -/
theorem planCrop_exact_halving :
    (∀ w h : ℕ,
      (planCrop ⟨w, h⟩).x = ((w : ℚ) - ((min w h : ℕ) : ℚ)) / 2 ∧
      (planCrop ⟨w, h⟩).y = ((h : ℚ) - ((min w h : ℕ) : ℚ)) / 2) ∧
    (planCrop ⟨401, 800⟩).x = 0 ∧
    (planCrop ⟨401, 800⟩).y = 399 / 2 := by
  refine ⟨fun w h => ⟨rfl, rfl⟩, ?_, ?_⟩ <;>
    · simp only [planCrop, getMinSideLength]
      norm_num

/-- Claim C3: for every decoded bitmap with positive dimensions, the planned
crop region stays within the source bounds: `x` and `y` are non-negative,
`x + width ≤ w` and `y + height ≤ h`. -/
theorem planCrop_in_bounds (w h : ℕ) (hw : 0 < w) (hh : 0 < h) :
    0 ≤ (planCrop ⟨w, h⟩).x ∧ 0 ≤ (planCrop ⟨w, h⟩).y ∧
    (planCrop ⟨w, h⟩).x + (planCrop ⟨w, h⟩).width ≤ (w : ℚ) ∧
    (planCrop ⟨w, h⟩).y + (planCrop ⟨w, h⟩).height ≤ (h : ℚ) := by
  have hxw : ((min w h : ℕ) : ℚ) ≤ (w : ℚ) := by
    exact_mod_cast Nat.min_le_left w h
  have hyh : ((min w h : ℕ) : ℚ) ≤ (h : ℚ) := by
    exact_mod_cast Nat.min_le_right w h
  simp only [planCrop, getMinSideLength]
  refine ⟨by linarith, by linarith, by linarith, by linarith⟩

/-- Witness for C3: the bounds at a concrete 3x5 bitmap. -/
theorem planCrop_in_bounds_witness :
    0 ≤ (planCrop ⟨3, 5⟩).x ∧ 0 ≤ (planCrop ⟨3, 5⟩).y ∧
    (planCrop ⟨3, 5⟩).x + (planCrop ⟨3, 5⟩).width ≤ (3 : ℚ) ∧
    (planCrop ⟨3, 5⟩).y + (planCrop ⟨3, 5⟩).height ≤ (5 : ℚ) :=
  planCrop_in_bounds 3 5 (by norm_num) (by norm_num)

/-- Claim C4: for every decoded bitmap whose width equals its height, the
planned crop region is the identity crop `{x := 0, y := 0, width := w,
height := w}`. -/
theorem planCrop_identity_when_square (w : ℕ) (hw : 0 < w) :
    planCrop ⟨w, w⟩ = ⟨0, 0, (w : ℚ), (w : ℚ)⟩ := by
  simp only [planCrop, getMinSideLength, min_self]
  norm_num

/-- Witness for C4: a 500x500 bitmap plans the whole-image crop. -/
theorem planCrop_identity_when_square_witness :
    planCrop ⟨500, 500⟩ = ⟨0, 0, (500 : ℚ), (500 : ℚ)⟩ :=
  planCrop_identity_when_square 500 (by norm_num)

/-- Claim C5: if any pipeline stage fails (decode or render throws), no
encoded output is produced — starting with no cropped image, the state still
has none — and the single user-visible processing-failed error message is
set, with processing over. -/
theorem handleAutoCrop_failure_no_output
    (createImage : String → Except String Bitmap)
    (getCroppedImg : String → Area → Except String String)
    (s : AppState) (src e : String)
    (hsrc : s.imageSrc = some src) (hne : src ≠ "")
    (hfail : pipelineResult createImage getCroppedImg src = Except.error e)
    (hnone : s.croppedImage = none) :
    (handleAutoCrop createImage getCroppedImg s).croppedImage = none ∧
    (handleAutoCrop createImage getCroppedImg s).error = some processErrorMsg ∧
    (handleAutoCrop createImage getCroppedImg s).isProcessing = false := by
  simp only [handleAutoCrop, hsrc, if_neg hne, hfail, handleAutoCropFinish,
    handleAutoCropStart]
  exact ⟨hnone, trivial, trivial⟩

/-- Witness for C5: a decoder that always throws, run from a state holding a
source and no cropped image. -/
theorem handleAutoCrop_failure_no_output_witness :
    (handleAutoCrop (fun _ => Except.error "bad") (fun _ _ => Except.ok "c")
      ⟨some "img", none, false, none⟩).croppedImage = none ∧
    (handleAutoCrop (fun _ => Except.error "bad") (fun _ _ => Except.ok "c")
      ⟨some "img", none, false, none⟩).error = some processErrorMsg ∧
    (handleAutoCrop (fun _ => Except.error "bad") (fun _ _ => Except.ok "c")
      ⟨some "img", none, false, none⟩).isProcessing = false :=
  handleAutoCrop_failure_no_output (fun _ => Except.error "bad")
    (fun _ _ => Except.ok "c") ⟨some "img", none, false, none⟩ "img" "bad"
    rfl (by decide) rfl rfl

/-- Claim C6: the region `handleAutoCrop` hands to the renderer is exactly
the planned crop, whose width and height both equal the shorter source
dimension, and (renderer modelled from the spec) the output surface has
those same dimensions — no upscaling or downsampling. -/
theorem renderer_receives_min_side_region :
    (∀ w h : ℕ, 0 < w → 0 < h →
      (planCrop ⟨w, h⟩).width = ((min w h : ℕ) : ℚ) ∧
      (planCrop ⟨w, h⟩).height = ((min w h : ℕ) : ℚ) ∧
      renderedSurfaceDims (planCrop ⟨w, h⟩) =
        (((min w h : ℕ) : ℚ), ((min w h : ℕ) : ℚ))) ∧
    (∀ (createImage : String → Except String Bitmap)
       (getCroppedImg : String → Area → Except String String)
       (src : String) (img : Bitmap), createImage src = Except.ok img →
      pipelineResult createImage getCroppedImg src =
        getCroppedImg src (planCrop img)) := by
  constructor
  · intro w h _ _
    exact ⟨rfl, rfl, rfl⟩
  · intro createImage getCroppedImg src img hok
    simp only [pipelineResult, hok]

/-- Witness for C6: instantiated at a 400x800 bitmap and a decoder that
returns it. -/
theorem renderer_receives_min_side_region_witness :
    renderedSurfaceDims (planCrop ⟨400, 800⟩) =
      (((min 400 800 : ℕ) : ℚ), ((min 400 800 : ℕ) : ℚ)) ∧
    pipelineResult (fun _ => Except.ok ⟨400, 800⟩) (fun _ _ => Except.ok "o")
        "s" =
      (fun (_ : String) (_ : Area) => Except.ok (ε := String) "o") "s"
        (planCrop ⟨400, 800⟩) :=
  ⟨(renderer_receives_min_side_region.1 400 800 (by norm_num)
      (by norm_num)).2.2,
   renderer_receives_min_side_region.2 (fun _ => Except.ok ⟨400, 800⟩)

     (fun _ _ => Except.ok "o") "s" ⟨400, 800⟩ rfl⟩

/-- Counterexample for C7: there is no request-identity guard.  From a state
processing source "imgA", loading a new source "imgB" clears the cropped
image, yet the completion of the crop started for "imgA" still overwrites
the newer state, installing the stale result. -/
theorem stale_completion_overwrites :
    (onFileChangeLoaded ⟨some "imgA", none, true, none⟩
      "imgB").croppedImage = none ∧
    (onFileChangeLoaded ⟨some "imgA", none, true, none⟩
      "imgB").imageSrc = some "imgB" ∧
    (handleAutoCropFinish
      (onFileChangeLoaded ⟨some "imgA", none, true, none⟩ "imgB")
      (Except.ok "cropOfA")).croppedImage = some "cropOfA" :=
  ⟨rfl, rfl, rfl⟩

/-- Claim C7 amended: the completion handler of `handleAutoCrop` applies its
result unconditionally — it installs the cropped image whatever the current
`imageSrc` is, so a completion from a superseded source overwrites the newer
state if it is ever delivered; starting a new source clears `croppedImage`
but does not discard the in-flight completion.  (The UI only mitigates this
by disabling reset and hiding the file input while `isProcessing`.) -/
theorem finish_applies_result_unconditionally :
    ∀ (s : AppState) (r : String),
      (handleAutoCropFinish s (Except.ok r)).croppedImage = some r ∧
      (handleAutoCropFinish s (Except.ok r)).imageSrc = s.imageSrc ∧
      (onFileChangeLoaded s r).croppedImage = none :=
  fun _ _ => ⟨rfl, rfl, rfl⟩

/-- Claim C8: when a cropped result exists, `downloadImage` exposes it to
the download collaborator under the fixed filename `square-crop.jpg`, i.e.
`square-crop.` followed by the extension `jpg`. -/
theorem downloadImage_fixed_filename (s : AppState) (c : String)
    (hc : s.croppedImage = some c) :
    downloadImage s = some ⟨c, "square-crop.jpg"⟩ ∧
    "square-crop.jpg" = "square-crop." ++ "jpg" := by
  simp only [downloadImage, hc]
  exact ⟨trivial, rfl⟩

/-- Witness for C8: a state holding a concrete cropped image. -/
theorem downloadImage_fixed_filename_witness :
    downloadImage ⟨some "img", some "dataUrl", false, none⟩ =
      some ⟨"dataUrl", "square-crop.jpg"⟩ :=
  (downloadImage_fixed_filename ⟨some "img", some "dataUrl", false, none⟩
    "dataUrl" rfl).1

/-- Claim C9: `handleAutoCrop` sets `isProcessing` to `true` on entry to the
`try` block, and every exit path of the completion — success or failure —
resets it to `false`; hence every run past the guard ends with the flag
`false`. -/
theorem handleAutoCrop_processing_flag :
    (∀ s : AppState, (handleAutoCropStart s).isProcessing = true) ∧
    (∀ (s : AppState) (r : Except String String),
      (handleAutoCropFinish s r).isProcessing = false) ∧
    (∀ (createImage : String → Except String Bitmap)
       (getCroppedImg : String → Area → Except String String)
       (s : AppState) (src : String),
      s.imageSrc = some src → src ≠ "" →
      (handleAutoCrop createImage getCroppedImg s).isProcessing = false) := by
  refine ⟨fun s => rfl, fun s r => ?_, ?_⟩
  · cases r <;> rfl
  · intro createImage getCroppedImg s src hsrc hne
    simp only [handleAutoCrop, hsrc, if_neg hne]
    cases pipelineResult createImage getCroppedImg src <;> rfl

/-- Witness for C9: a full run with a succeeding pipeline ends with the
flag down. -/
theorem handleAutoCrop_processing_flag_witness :
    (handleAutoCrop (fun _ => Except.ok ⟨400, 800⟩) (fun _ _ => Except.ok "c")
      ⟨some "img", none, false, none⟩).isProcessing = false :=
  handleAutoCrop_processing_flag.2.2 (fun _ => Except.ok ⟨400, 800⟩)
    (fun _ _ => Except.ok "c") ⟨some "img", none, false, none⟩ "img" rfl
    (by decide)

/-- Claim C10: when no image source is loaded, `handleAutoCrop` returns
immediately and the whole state — `croppedImage`, `error`, `isProcessing`,
`imageSrc` — is unchanged, whatever the collaborators do. -/
theorem handleAutoCrop_noop_without_source
    (createImage : String → Except String Bitmap)
    (getCroppedImg : String → Area → Except String String)
    (s : AppState) (hsrc : s.imageSrc = none) :
    handleAutoCrop createImage getCroppedImg s = s := by
  simp only [handleAutoCrop, hsrc]

/-- Witness for C10: a concrete empty state is returned untouched. -/
theorem handleAutoCrop_noop_without_source_witness :
    handleAutoCrop (fun _ => Except.error "bad") (fun _ _ => Except.ok "c")
      ⟨none, none, false, none⟩ = ⟨none, none, false, none⟩ :=
  handleAutoCrop_noop_without_source (fun _ => Except.error "bad")
    (fun _ _ => Except.ok "c") ⟨none, none, false, none⟩ rfl
